import Mathlib

/-!
Verification development for the daily-numbers report script.

The definitions below are a shallow embedding of the row-selection and
field-derivation engine of the script: calendar dates, cell values, rows as
ordered string-keyed dictionaries, lenient numeric coercion, the row selector
with its missing-date-column error, the three-way field-spec dispatch, and the
per-source report assembly loop with its error isolation.
-/

namespace DailyNumbers

/-- A calendar date (year, month, day); time-of-day is already stripped. -/
structure Date where
  year : Nat
  month : Nat
  day : Nat
deriving DecidableEq, Repr

/-- A cell value as it appears in a fetched row: Python None, a float NaN,
a finite number, or a string. -/
inductive Value where
  | null
  | nan
  | num (q : ℚ)
  | str (s : String)
deriving DecidableEq, Repr

/-- Model of the Python method lower() on strings: lower-case every character. -/
def pyLower (s : String) : String :=
  String.mk (s.data.map Char.toLower)

/-- Remove leading and trailing whitespace from a character list. -/
def trimChars (l : List Char) : List Char :=
  ((l.dropWhile Char.isWhitespace).reverse.dropWhile Char.isWhitespace).reverse

/-- Model of the Python method strip() on strings: drop surrounding whitespace. -/
def pyStrip (s : String) : String :=
  String.mk (trimChars s.data)

/-- The key folding applied by the script to every lookup key:
strip() then lower(). -/
def foldKey (s : String) : String :=
  pyLower (pyStrip s)

/-- A row is an insertion-ordered dictionary from column name to cell value. -/
abbrev Row := List (String × Value)

/-- Python dict lookup: the value bound to the key, if present. -/
def dictGet (d : Row) (k : String) : Option Value :=
  (d.find? (fun kv => kv.1 == k)).map (fun kv => kv.2)

/-- Python dict assignment d[k] = v: overwrite in place when the key is
present (keeping its position), otherwise append at the end. -/
def dictInsert (d : Row) (k : String) (v : Value) : Row :=
  if d.any (fun kv => kv.1 == k) then
    d.map (fun kv => if kv.1 == k then (k, v) else kv)
  else
    d ++ [(k, v)]

/-- The case-insensitive view of a row built by the script:
a dict comprehension folding every column name to lower case. -/
def buildRowL (row : Row) : Row :=
  row.foldl (fun d kv => dictInsert d (pyLower kv.1) kv.2) []

/-- Numeric value of a digit list read in base 10. -/
def digitsVal (l : List Char) : Nat :=
  l.foldl (fun n c => 10 * n + (c.toNat - 48)) 0

/-- Parse an unsigned decimal literal: digits with an optional fractional
part, as accepted by the Python float constructor. -/
def pyFloatCore (l : List Char) : Option ℚ :=
  let ip := l.takeWhile (fun c => c != '.')
  match l.dropWhile (fun c => c != '.') with
  | [] =>
    if ip.length != 0 && ip.all Char.isDigit then some (digitsVal ip) else none
  | _ :: fp =>
    if (ip.length != 0 || fp.length != 0) && ip.all Char.isDigit && fp.all Char.isDigit then
      some ((digitsVal ip : ℚ) + (digitsVal fp : ℚ) / ((10 : ℚ) ^ fp.length))
    else none

/-- Model of the Python float constructor on strings: ignore surrounding
whitespace, allow a sign, then a decimal literal; anything else fails. -/
def pyFloat (s : String) : Option ℚ :=
  match trimChars s.data with
  | '-' :: rest => (pyFloatCore rest).map (fun q => -q)
  | '+' :: rest => pyFloatCore rest
  | l => pyFloatCore l

/-- A fetched table: the column names and the ordered data rows. -/
structure Table where
  cols : List String
  rows : List Row

/-- The message of the error raised when the configured date column is
missing from the fetched table. -/
def dateColMsg (df : Table) (dc : String) : String :=
  "Date column " ++ dc ++ " not found. Found: " ++ String.intercalate ", " df.cols

/-- Read one cell of a row by exact column name; a cell absent from the row
is a NaN, as in a dataframe. -/
def rowGet (r : Row) (c : String) : Value :=
  match r.find? (fun kv => kv.1 == c) with
  | some kv => kv.2
  | none => Value.nan

/-- The row selector: raise a configuration error when the date column is
absent, otherwise return the first row whose date cell parses to the target
calendar date, or none when no row matches. The lenient cell-date parser is
an explicit parameter. -/
def row_for_date (parse : Value → Option Date) (df : Table) (date_column : String)
    (target : Date) : Except String (Option Row) :=
  if df.cols.contains date_column then
    Except.ok (df.rows.find? (fun r => parse (rowGet r date_column) == some target))
  else
    Except.error (dateColMsg df date_column)

/-- One raw field-specification item from the configuration: either a plain
string, or a structured object possibly carrying key, sum and label entries. -/
inductive RawField where
  | str (s : String)
  | obj (key : Option String) (sum : Option (List String)) (label : Option String)
deriving DecidableEq, Repr

/-- One summand of a computed sum, for an already-folded key: look the key up
in the case-insensitive view with default 0, turn None, NaN and the empty
string into 0, then coerce to a number, any coercion failure counting as 0. -/
def sumTerm (rl : Row) (k : String) : ℚ :=
  match dictGet rl k with
  | none => 0
  | some v =>
    let w := if v = Value.null ∨ v = Value.nan ∨ v = Value.str "" then Value.num 0 else v
    match w with
    | Value.null => 0
    | Value.nan => 0
    | Value.num q => q
    | Value.str s =>
      match pyFloat s with
      | some q => q
      | none => 0

/-- The value of a computed-sum field: fold every key, resolve each to a
number and add them up. -/
def computedSum (rl : Row) (ks : List String) : ℚ :=
  (ks.map (fun k => sumTerm rl (foldKey k))).sum

/-- Evaluate one raw field item against the case-insensitive row view,
mirroring the three-branch dispatch of the script: a plain string is a direct
lookup labelled by the original string; an object with a key entry is an
aliased lookup whose label defaults to the folded key; otherwise an object
with a sum entry is a computed sum whose label defaults to Sum; any other
shape is skipped. -/
def evalField (rl : Row) (f : RawField) : Option (String × Value) :=
  match f with
  | RawField.str s =>
    some (s, (dictGet rl (foldKey s)).getD Value.null)
  | RawField.obj (some k) _ lbl =>
    some (lbl.getD (foldKey k), (dictGet rl (foldKey k)).getD Value.null)
  | RawField.obj none (some ks) lbl =>
    some (lbl.getD "Sum", Value.num (computedSum rl ks))
  | RawField.obj none none _ => none

/-- Evaluate a list of field items into the ordered output mapping,
skipped items contributing nothing and duplicate labels overwriting. -/
def evalFields (rl : Row) (fs : List RawField) : Row :=
  fs.foldl (fun out f =>
    match evalField rl f with
    | none => out
    | some lv => dictInsert out lv.1 lv.2) []

/-- Configuration of one source: the required worksheet and date-column
entries and the optional title, fields and emoji entries. -/
structure SourceConfig where
  title : Option String
  spreadsheet_id : String
  worksheet : String
  date_column : String
  fields : Option (List RawField)
  emoji : Option String

/-- Title shown for a source: the configured title, else the worksheet name. -/
def entryTitle (cfg : SourceConfig) : String :=
  cfg.title.getD cfg.worksheet

/-- One entry of the final report: title, optional emoji, status text and
the optional ordered field mapping. -/
structure ReportEntry where
  title : String
  emoji : Option String := none
  status : String
  fields : Option Row := none
deriving DecidableEq, Repr

/-- Fetch the table of a source and select its row for the target date;
either stage may fail with a message. -/
def fetchAndSelect (parse : Value → Option Date) (fetch : SourceConfig → Except String Table)
    (target : Date) (cfg : SourceConfig) : Except String (Option Row) :=
  (fetch cfg).bind (fun df => row_for_date parse df cfg.date_column target)

/-- Process one source into one report entry: any failure while fetching or
selecting becomes an error entry, a missing row becomes a warning entry, and
a found row is evaluated into a success entry. -/
def processSource (parse : Value → Option Date) (fetch : SourceConfig → Except String Table)
    (target : Date) (cfg : SourceConfig) : ReportEntry :=
  match fetchAndSelect parse fetch target cfg with
  | Except.error e =>
    { title := entryTitle cfg, status := ":x: Error – " ++ e }
  | Except.ok none =>
    { title := entryTitle cfg, status := ":warning: No row for previous day" }
  | Except.ok (some row) =>
    { title := entryTitle cfg
      emoji := some (cfg.emoji.getD "📍")
      status := ""
      fields := some (evalFields (buildRowL row) (cfg.fields.getD [])) }

/-- The full run: one report entry per configured source, in order. -/
def runReport (parse : Value → Option Date) (fetch : SourceConfig → Except String Table)
    (target : Date) (cfgs : List SourceConfig) : List ReportEntry :=
  cfgs.map (processSource parse fetch target)

/-- Resolution of one computed-sum key as the specification words it:
absent, None, NaN and empty-string values count as 0, a number counts as
itself, and any other string counts as its parsed numeric value, a parse
failure counting as 0. -/
def sumTermSpec (rl : Row) (k : String) : ℚ :=
  match dictGet rl k with
  | none => 0
  | some Value.null => 0
  | some Value.nan => 0
  | some (Value.num q) => q
  | some (Value.str s) => if s = "" then 0 else (pyFloat s).getD 0

/-- Executable predicate: an optional looked-up value is blank or a
non-negative number. -/
def blankOrNonneg (v : Option Value) : Bool :=
  match v with
  | none => true
  | some Value.null => true
  | some Value.nan => true
  | some (Value.num q) => decide (0 ≤ q)
  | some (Value.str s) => s == ""

/-- Demo cell-date parser for concrete runs: recognizes two ISO date strings. -/
def demoParse (v : Value) : Option Date :=
  match v with
  | Value.str "2024-06-01" => some ⟨2024, 6, 1⟩
  | Value.str "2024-06-02" => some ⟨2024, 6, 2⟩
  | _ => none

/-- Demo target date. -/
def demoTarget : Date := ⟨2024, 6, 1⟩

/-- Demo row matching the target date, with a blank cell in column B. -/
def demoRow : Row :=
  [("Date", Value.str "2024-06-01"), ("A", Value.str "10"), ("B", Value.str "")]

/-- Demo table whose first row matches the target date. -/
def demoTable1 : Table :=
  { cols := ["Date", "A", "B"]
    rows := [demoRow,
      [("Date", Value.str "2024-06-02"), ("A", Value.str "5"), ("B", Value.str "3")]] }

/-- Demo table with no row for the target date. -/
def demoTable3 : Table :=
  { cols := ["Date", "A"]
    rows := [[("Date", Value.str "2024-06-02"), ("A", Value.num 7)]] }

/-- Demo table lacking a Date column. -/
def demoTableNoDate : Table :=
  { cols := ["Day", "A"]
    rows := [[("Day", Value.str "2024-06-01"), ("A", Value.num 7)]] }

/-- Demo source one: a computed-sum field over columns A and B. -/
def demoCfg1 : SourceConfig :=
  { title := some "One", spreadsheet_id := "id1", worksheet := "w1", date_column := "Date"
    fields := some [RawField.obj none (some ["A", "B"]) (some "Total")], emoji := none }

/-- Demo source two, whose fetch will fail. -/
def demoCfg2 : SourceConfig :=
  { title := some "Two", spreadsheet_id := "id2", worksheet := "w2", date_column := "Date"
    fields := some [], emoji := none }

/-- Demo source three, whose table has no matching row. -/
def demoCfg3 : SourceConfig :=
  { title := some "Three", spreadsheet_id := "id3", worksheet := "w3", date_column := "Date"
    fields := some [RawField.str "A"], emoji := none }

/-- Demo fetch: source two is unreachable, the others return their tables. -/
def demoFetch (cfg : SourceConfig) : Except String Table :=
  match cfg.worksheet with
  | "w1" => Except.ok demoTable1
  | "w2" => Except.error "boom"
  | _ => Except.ok demoTable3

/-- Demo source configured with a date column its table does not have. -/
def demoCfgBad : SourceConfig :=
  { title := none, spreadsheet_id := "id4", worksheet := "w4", date_column := "Date"
    fields := none, emoji := none }

/-- Demo fetch always returning the table that lacks the date column. -/
def demoFetchBad (_ : SourceConfig) : Except String Table :=
  Except.ok demoTableNoDate

/-- Demo row with a single Revenue column. -/
def demoRowRev : Row := [("Revenue", Value.num 5)]

/-- Demo row whose cells are numeric, blank or null. -/
def demoRowNum : Row := [("A", Value.num 3), ("B", Value.str ""), ("C", Value.null)]

/-- Conversion of a valid code point back from Char.ofNat. -/
theorem toNat_ofNat_valid (n : Nat) (h : n < 55296) : (Char.ofNat n).toNat = n := by
  rw [Char.ofNat, dif_pos (Or.inl h)]
  rfl

/-- Whitespace characters have small code points. -/
theorem toNat_le_of_isWhitespace (c : Char) (h : c.isWhitespace = true) : c.toNat ≤ 32 := by
  have hc : ((c = ' ' ∨ c = '\t') ∨ c = '\x0d') ∨ c = '\n' := by
    simpa [Char.isWhitespace] using h
  rcases hc with ((rfl | rfl) | rfl) | rfl <;> decide

/-- Lower-casing a character does not change whether it is whitespace. -/
theorem isWhitespace_toLower (c : Char) : (Char.toLower c).isWhitespace = c.isWhitespace := by
  by_cases hw : c.isWhitespace = true
  · have hc : ((c = ' ' ∨ c = '\t') ∨ c = '\x0d') ∨ c = '\n' := by
      simpa [Char.isWhitespace] using hw
    rcases hc with ((rfl | rfl) | rfl) | rfl <;> rfl
  · rw [Bool.not_eq_true] at hw
    rw [hw]
    unfold Char.toLower
    show (if c.toNat >= 65 ∧ c.toNat <= 90 then Char.ofNat (c.toNat + 32) else c).isWhitespace
      = false
    split
    next h =>
      have hv : (Char.ofNat (c.toNat + 32)).toNat = c.toNat + 32 :=
        toNat_ofNat_valid _ (by omega)
      by_cases hx : (Char.ofNat (c.toNat + 32)).isWhitespace = true
      · have := toNat_le_of_isWhitespace _ hx
        omega
      · exact Bool.not_eq_true _ |>.mp hx
    next => exact hw

/-- Trimming commutes with lower-casing. -/
theorem trimChars_map_toLower (l : List Char) :
    trimChars (l.map Char.toLower) = (trimChars l).map Char.toLower := by
  have hpf : (Char.isWhitespace ∘ Char.toLower) = Char.isWhitespace :=
    funext isWhitespace_toLower
  simp only [trimChars, List.dropWhile_map, hpf, ← List.map_reverse]

/-- Key folding is trimming after lower-casing. -/
theorem foldKey_eq (s : String) : foldKey s = String.mk (trimChars (pyLower s).data) := by
  simp only [foldKey, pyLower, pyStrip, trimChars_map_toLower]

/-- Two keys with equal lower-casings fold to the same lookup key. -/
theorem foldKey_congr {a b : String} (h : pyLower a = pyLower b) : foldKey a = foldKey b := by
  rw [foldKey_eq, foldKey_eq, h]

/-- Replacing the binding of key k yields exactly that binding when k occurs. -/
theorem find?_key_map_replace_of_mem (d : Row) (k : String) (v : Value)
    (h : d.any (fun kv => kv.1 == k) = true) :
    (d.map (fun kv => if kv.1 == k then (k, v) else kv)).find? (fun kv => kv.1 == k)
      = some (k, v) := by
  induction d with
  | nil => simp at h
  | cons a d ih =>
    by_cases hak : a.1 = k
    · simp [hak]
    · have h2 : d.any (fun kv => kv.1 == k) = true := by
        simpa [List.any_cons, hak] using h
      simp only [List.map_cons]
      rw [if_neg (by simp [hak]), List.find?_cons_of_neg _ (by simp [hak])]
      exact ih h2

/-- Appending a fresh binding of key k makes it the one found for k. -/
theorem find?_key_append_single (d : Row) (k : String) (v : Value)
    (h : d.any (fun kv => kv.1 == k) = false) :
    (d ++ [(k, v)]).find? (fun kv => kv.1 == k) = some (k, v) := by
  rw [List.find?_append]
  have hn : d.find? (fun kv => kv.1 == k) = none := by
    rw [List.find?_eq_none]
    intro x hx hxk
    have : d.any (fun kv => kv.1 == k) = true := List.any_eq_true.mpr ⟨x, hx, hxk⟩
    rw [h] at this
    exact Bool.false_ne_true this
  simp [hn]

/-- Replacing the binding of key k does not change lookups of other keys. -/
theorem dictGet_map_replace (d : Row) (k j : String) (v : Value) (hjk : j ≠ k) :
    dictGet (d.map (fun kv => if kv.1 == k then (k, v) else kv)) j = dictGet d j := by
  unfold dictGet
  induction d with
  | nil => rfl
  | cons a d ih =>
    simp only [List.map_cons]
    by_cases hak : a.1 = k
    · rw [if_pos (by simp [hak])]
      rw [List.find?_cons_of_neg _ (by simp; exact fun h => hjk h.symm),
        List.find?_cons_of_neg _ (by simp [hak]; exact fun h => hjk h.symm)]
      exact ih
    · rw [if_neg (by simp [hak])]
      by_cases haj : a.1 = j
      · rw [List.find?_cons_of_pos _ (by simp [haj]), List.find?_cons_of_pos _ (by simp [haj])]
      · rw [List.find?_cons_of_neg _ (by simp [haj]), List.find?_cons_of_neg _ (by simp [haj])]
        exact ih

/-- Lookup after a dict assignment: the assigned key reads the new value,
every other key is unchanged. -/
theorem dictGet_dictInsert (d : Row) (k j : String) (v : Value) :
    dictGet (dictInsert d k v) j = if j = k then some v else dictGet d j := by
  by_cases hj : j = k
  · subst hj
    rw [if_pos rfl]
    unfold dictInsert
    split
    next hany =>
      unfold dictGet
      rw [find?_key_map_replace_of_mem d j v hany]
      rfl
    next hany =>
      unfold dictGet
      rw [find?_key_append_single d j v (Bool.not_eq_true _ |>.mp hany)]
      rfl
  · rw [if_neg hj]
    unfold dictInsert
    split
    next => exact dictGet_map_replace d k j v hj
    next =>
      unfold dictGet
      rw [List.find?_append]
      have hone : ([(k, v)].find? (fun kv => kv.1 == j)) = none := by
        simp
        exact fun h => hj h.symm
      simp [hone]

/-- Lookup through the folding loop of the case-insensitive view: the result
is the value of the last matching column of the processed list, else whatever
the accumulator already held. -/
theorem dictGet_buildRowL_fold (row : Row) (d : Row) (k : String) :
    dictGet (row.foldl (fun d kv => dictInsert d (pyLower kv.1) kv.2) d) k =
      ((row.reverse.find? (fun kv => pyLower kv.1 == k)).map (fun kv => kv.2)).or
        (dictGet d k) := by
  induction row generalizing d with
  | nil => simp
  | cons a row ih =>
    rw [List.foldl_cons, ih, List.reverse_cons, List.find?_append]
    cases hfind : row.reverse.find? (fun kv => pyLower kv.1 == k) with
    | some kv => simp [Option.or]
    | none =>
      rw [dictGet_dictInsert]
      by_cases hk : k = pyLower a.1
      · subst hk
        simp
      · rw [if_neg hk]
        have hone : ([a].find? (fun kv => pyLower kv.1 == k)) = none := by
          simp
          exact fun hcontra => hk hcontra.symm
        simp [hone]

/-- The case-insensitive view reads back, for every key, the value of the
last column in row order whose lower-cased name equals it. -/
theorem dictGet_buildRowL (row : Row) (k : String) :
    dictGet (buildRowL row) k
      = (row.reverse.find? (fun kv => pyLower kv.1 == k)).map (fun kv => kv.2) := by
  have hfold := dictGet_buildRowL_fold row [] k
  simpa [buildRowL, dictGet] using hfold

/-- The code path for one computed-sum key agrees with the specification
resolution rule. -/
theorem sumTerm_eq_spec (rl : Row) (k : String) : sumTerm rl k = sumTermSpec rl k := by
  unfold sumTerm sumTermSpec
  cases hget : dictGet rl k with
  | none => rfl
  | some v =>
    cases v with
    | null => simp
    | nan => simp
    | num q => simp
    | str s =>
      by_cases hs : s = ""
      · subst hs
        simp
      · simp only [hs, if_false, Value.str.injEq, or_false, if_neg
          (show ¬(Value.str s = Value.null ∨ Value.str s = Value.nan ∨ Value.str s = Value.str "")
            by simp [hs])]
        cases hf : pyFloat s <;> simp [hf]

/-- C1: a run produces exactly one report entry per configured source, in the
configured order, each entry a function of its own source alone; and any
failure while fetching or selecting for one source is converted into an Error
entry carrying a human-readable message for that source. -/
theorem claim_C1 (parse : Value → Option Date) (fetch : SourceConfig → Except String Table)
    (target : Date) (cfgs : List SourceConfig) :
    (runReport parse fetch target cfgs).length = cfgs.length
    ∧ (∀ i : Nat, (runReport parse fetch target cfgs)[i]? =
        (cfgs[i]?).map (processSource parse fetch target))
    ∧ (∀ cfg e, fetchAndSelect parse fetch target cfg = Except.error e →
        processSource parse fetch target cfg =
          { title := entryTitle cfg, emoji := none, status := ":x: Error – " ++ e,
            fields := none }) := by
  refine ⟨List.length_map _ _, fun i => List.getElem?_map _ cfgs i, fun cfg e h => ?_⟩
  unfold processSource
  rw [h]

/-- Witness for C1: a concrete three-source run in which the second fetch
fails, yet the report keeps three entries in order, the middle one an error
entry and the others a success entry (with Total 10, the blank cell counting
as zero) and a not-found entry. -/
theorem claim_C1_witness :
    processSource demoParse demoFetch demoTarget demoCfg2 =
      { title := "Two", emoji := none, status := ":x: Error – boom", fields := none }
    ∧ (runReport demoParse demoFetch demoTarget [demoCfg1, demoCfg2, demoCfg3]).length = 3
    ∧ (runReport demoParse demoFetch demoTarget [demoCfg1, demoCfg2, demoCfg3])[0]? =
        some { title := "One", emoji := some "📍", status := "",
               fields := some [("Total", Value.num (computedSum (buildRowL demoRow) ["A", "B"]))] }
    ∧ (runReport demoParse demoFetch demoTarget [demoCfg1, demoCfg2, demoCfg3])[1]? =
        some { title := "Two", emoji := none, status := ":x: Error – boom", fields := none }
    ∧ (runReport demoParse demoFetch demoTarget [demoCfg1, demoCfg2, demoCfg3])[2]? =
        some { title := "Three", emoji := none, status := ":warning: No row for previous day",
               fields := none }
    ∧ computedSum (buildRowL demoRow) ["A", "B"] = 10 := by
  have hc := claim_C1 demoParse demoFetch demoTarget [demoCfg1, demoCfg2, demoCfg3]
  have hA : sumTerm (buildRowL demoRow) (foldKey "A") = 10 := by decide
  have hB : sumTerm (buildRowL demoRow) (foldKey "B") = 0 := by decide
  refine ⟨hc.2.2 demoCfg2 "boom" rfl, hc.1.trans rfl, (hc.2.1 0).trans ?_,
    (hc.2.1 1).trans ?_, (hc.2.1 2).trans ?_, ?_⟩
  · rfl
  · rfl
  · rfl
  · simp [computedSum, hA, hB]

/-- C2 counterexample: two columns fold to the same key and the value kept is
the one of the LAST such column, so first-occurrence-wins is false. -/
theorem claim_C2_counterexample :
    dictGet (buildRowL [("A", Value.num 1), ("a", Value.num 2)]) "a" = some (Value.num 2)
    ∧ some (Value.num 2) ≠ some (Value.num 1) :=
  ⟨by decide, by decide⟩

/-- C2 amended: in the case-insensitive view of a row, the value kept for a
folded key is the one of the last column in row order whose lower-cased name
equals it (last occurrence wins on collision). -/
theorem claim_C2 (row : Row) (k : String) :
    dictGet (buildRowL row) k
      = (row.reverse.find? (fun kv => pyLower kv.1 == k)).map (fun kv => kv.2) :=
  dictGet_buildRowL row k

/-- C3 counterexample: for a structured item with key Revenue and no label,
the output label is the folded key, not the original key string. -/
theorem claim_C3_counterexample :
    (evalField (buildRowL []) (RawField.obj (some "Revenue") none none)).map (fun lv => lv.1)
      = some "revenue"
    ∧ ("revenue" : String) ≠ "Revenue" :=
  ⟨by decide, by decide⟩

/-- C3 amended: for a structured item with a key and no explicit label, the
output label is the trimmed lower-cased form of the key. -/
theorem claim_C3 (rl : Row) (k : String) (s : Option (List String)) :
    (evalField rl (RawField.obj (some k) s none)).map (fun lv => lv.1) = some (foldKey k) :=
  rfl

/-- C4: when the table has the date column but no row parses to the target
calendar date (unparsable cells included), selection returns ok-none, never
an error. -/
theorem claim_C4 (parse : Value → Option Date) (df : Table) (dc : String) (target : Date)
    (hc : df.cols.contains dc = true)
    (h : ∀ r ∈ df.rows, parse (rowGet r dc) ≠ some target) :
    row_for_date parse df dc target = Except.ok none := by
  unfold row_for_date
  rw [if_pos hc]
  refine congrArg Except.ok ?_
  rw [List.find?_eq_none]
  intro r hr hb
  exact h r hr (eq_of_beq hb)

/-- Witness for C4 at a concrete table whose only row has another date. -/
theorem claim_C4_witness :
    demoTable3.cols.contains "Date" = true
    ∧ (∀ r ∈ demoTable3.rows, demoParse (rowGet r "Date") ≠ some demoTarget)
    ∧ row_for_date demoParse demoTable3 "Date" demoTarget = Except.ok none :=
  ⟨by decide, by decide,
    claim_C4 demoParse demoTable3 "Date" demoTarget (by decide) (by decide)⟩

/-- C5: when the date column is missing from the table, selection fails with
the configuration error message rather than returning a not-found result, and
one source built over that table gets an Error entry while the run keeps
going. -/
theorem claim_C5 (parse : Value → Option Date) (df : Table) (dc : String) (target : Date)
    (h : df.cols.contains dc = false) :
    row_for_date parse df dc target = Except.error (dateColMsg df dc)
    ∧ (∀ res : Option Row, row_for_date parse df dc target ≠ Except.ok res)
    ∧ (∀ (fetch : SourceConfig → Except String Table) (cfg : SourceConfig),
        cfg.date_column = dc → fetch cfg = Except.ok df →
        processSource parse fetch target cfg =
          { title := entryTitle cfg, emoji := none,
            status := ":x: Error – " ++ dateColMsg df dc, fields := none }) := by
  have h1 : row_for_date parse df dc target = Except.error (dateColMsg df dc) := by
    unfold row_for_date
    rw [if_neg (show ¬(df.cols.contains dc = true) by rw [h]; exact Bool.false_ne_true)]
  refine ⟨h1, ?_, ?_⟩
  · intro res hres
    rw [h1] at hres
    exact Except.noConfusion hres
  · intro fetch cfg hdc hfetch
    have h2 : fetchAndSelect parse fetch target cfg = Except.error (dateColMsg df dc) := by
      unfold fetchAndSelect
      rw [hfetch]
      show row_for_date parse df cfg.date_column target = Except.error (dateColMsg df dc)
      rw [hdc, h1]
    unfold processSource
    rw [h2]

/-- Witness for C5 at a concrete table lacking the configured date column. -/
theorem claim_C5_witness :
    demoTableNoDate.cols.contains "Date" = false
    ∧ row_for_date demoParse demoTableNoDate "Date" demoTarget
        = Except.error (dateColMsg demoTableNoDate "Date")
    ∧ processSource demoParse demoFetchBad demoTarget demoCfgBad =
        { title := entryTitle demoCfgBad, emoji := none,
          status := ":x: Error – " ++ dateColMsg demoTableNoDate "Date", fields := none } :=
  ⟨by decide,
    (claim_C5 demoParse demoTableNoDate "Date" demoTarget (by decide)).1,
    (claim_C5 demoParse demoTableNoDate "Date" demoTarget (by decide)).2.2
      demoFetchBad demoCfgBad rfl rfl⟩

/-- C6: a computed-sum field always evaluates to a numeric value (never the
missing sentinel): every key is folded and resolved in order through the
case-insensitive view, and the result is the sum of the per-key resolutions,
which treat absent, None, NaN, empty-string and unparsable values as zero. -/
theorem claim_C6 (row : Row) (ks : List String) (lbl : Option String) :
    evalField (buildRowL row) (RawField.obj none (some ks) lbl)
      = some (lbl.getD "Sum",
          Value.num ((ks.map (fun k => sumTermSpec (buildRowL row) (foldKey k))).sum)) := by
  unfold evalField computedSum
  rw [funext (fun k => sumTerm_eq_spec (buildRowL row) (foldKey k))]

/-- C7 counterexample: a single numeric cell holding a negative number makes
the computed sum negative, refuting the unconditional lower bound of zero. -/
theorem claim_C7_counterexample :
    dictGet (buildRowL [("a", Value.num (-1))]) (foldKey "a") = some (Value.num (-1))
    ∧ computedSum (buildRowL [("a", Value.num (-1))]) ["a"] = -1
    ∧ ¬ (0 ≤ (-1 : ℚ)) := by
  have hterm : sumTerm (buildRowL [("a", Value.num (-1))]) (foldKey "a") = -1 := by decide
  exact ⟨by decide, by simp [computedSum, hterm], by norm_num⟩

/-- C7 amended: the computed sum is a (finite) rational in this model, and it
is non-negative whenever every key resolves to a blank or to a non-negative
number; absent and blank entries contribute exactly zero. -/
theorem claim_C7 (row : Row) (ks : List String)
    (h : ∀ k ∈ ks, blankOrNonneg (dictGet (buildRowL row) (foldKey k)) = true) :
    0 ≤ computedSum (buildRowL row) ks := by
  unfold computedSum
  apply List.sum_nonneg
  intro x hx
  obtain ⟨k, hk, rfl⟩ := List.mem_map.mp hx
  have hb := h k hk
  cases hget : dictGet (buildRowL row) (foldKey k) with
  | none => simp [sumTerm, hget]
  | some v =>
    cases v with
    | null => simp [sumTerm, hget]
    | nan => simp [sumTerm, hget]
    | num q =>
      rw [hget] at hb
      simp only [blankOrNonneg, decide_eq_true_eq] at hb
      simpa [sumTerm, hget] using hb
    | str s =>
      rw [hget] at hb
      have hs : s = "" := by simpa [blankOrNonneg] using hb
      subst hs
      simp [sumTerm, hget]

/-- Witness for C7 at a concrete row with numeric, blank, null and absent
keys. -/
theorem claim_C7_witness :
    (∀ k ∈ ["A", "B", "C", "missing"],
      blankOrNonneg (dictGet (buildRowL demoRowNum) (foldKey k)) = true)
    ∧ 0 ≤ computedSum (buildRowL demoRowNum) ["A", "B", "C", "missing"] :=
  ⟨by decide, claim_C7 demoRowNum ["A", "B", "C", "missing"] (by decide)⟩

/-- C9: direct and aliased lookups are case-insensitive: two keys with equal
lower-casings yield identical values against the same row. -/
theorem claim_C9 (row : Row) (k₁ k₂ : String) (h : pyLower k₁ = pyLower k₂) :
    ((evalField (buildRowL row) (RawField.str k₁)).map (fun lv => lv.2)
       = (evalField (buildRowL row) (RawField.str k₂)).map (fun lv => lv.2))
    ∧ (∀ s lbl, evalField (buildRowL row) (RawField.obj (some k₁) s lbl)
       = evalField (buildRowL row) (RawField.obj (some k₂) s lbl)) := by
  have hk := foldKey_congr h
  constructor
  · show some ((dictGet (buildRowL row) (foldKey k₁)).getD Value.null)
      = some ((dictGet (buildRowL row) (foldKey k₂)).getD Value.null)
    rw [hk]
  · intro s lbl
    show some (lbl.getD (foldKey k₁), (dictGet (buildRowL row) (foldKey k₁)).getD Value.null)
      = some (lbl.getD (foldKey k₂), (dictGet (buildRowL row) (foldKey k₂)).getD Value.null)
    rw [hk]

/-- Witness for C9 on the keys Revenue and revenue against a concrete row. -/
theorem claim_C9_witness :
    pyLower "Revenue" = pyLower "revenue"
    ∧ (evalField (buildRowL demoRowRev) (RawField.str "Revenue")).map (fun lv => lv.2)
      = (evalField (buildRowL demoRowRev) (RawField.str "revenue")).map (fun lv => lv.2) :=
  ⟨by decide, (claim_C9 demoRowRev "Revenue" "revenue" (by decide)).1⟩

/-- C10: an item carrying both a key and a sum entry is dispatched as an
aliased direct lookup, the sum entry being ignored. -/
theorem claim_C10 (rl : Row) (k : String) (ks : List String) (lbl : Option String) :
    evalField rl (RawField.obj (some k) (some ks) lbl)
      = evalField rl (RawField.obj (some k) none lbl)
    ∧ evalField rl (RawField.obj (some k) (some ks) lbl)
      = some (lbl.getD (foldKey k), (dictGet rl (foldKey k)).getD Value.null) :=
  ⟨rfl, rfl⟩

end DailyNumbers
